import Mathlib

/-!
Shallow embedding of `src/main.rs` of `balena-rust-hello-world`: a program
bridging an SGP30 air-quality sensor to a HomeKit accessory with three
characteristics (overall air-quality index, CO2-equivalent level, VOC
density).  The pure fragments of the code — the classification conditionals,
the IPv4 discovery loop, the configuration bootstrap `match` — are translated
into Lean functions; the fallible hardware measurement is passed to the read
callbacks as an `Except` value, and a Rust `.unwrap()` of an error is
modelled as an explicit panic outcome.
-/

namespace AirQualitySensor

/-- A single SGP30 measurement (`sgp30::Measurement`): CO2-equivalent
concentration in ppm and total VOC in ppb.  Both fields are unsigned 16-bit
integers on the hardware; they are embedded as `Nat`. -/
structure Measurement where
  co2eq_ppm : Nat
  tvoc_ppb : Nat
deriving DecidableEq

/-- The error variants of the sgp30 driver's measurement transaction
(`sgp30::Error`). -/
inductive MeasureError where
  | i2cWrite
  | i2cRead
  | crc
  | notInitialized
deriving DecidableEq

/-- Outcome of one invocation of an async read callback: either the closure
returns an optional value to the protocol layer, or it panics (a Rust
`.unwrap()` applied to an `Err`). -/
inductive CallbackOutcome (α : Type) where
  | returned : Option α → CallbackOutcome α
  | panicked : CallbackOutcome α
deriving DecidableEq

/-- The `co2_value` chained conditional of the `air_quality` read closure
(`main.rs` lines 75–85).  Rust `(lo..hi).contains(&co2)` is
`lo ≤ co2 ∧ co2 < hi`. -/
def co2_value (co2 : Nat) : Nat :=
  if 0 ≤ co2 ∧ co2 < 400 then 1
  else if 400 ≤ co2 ∧ co2 < 1000 then 2
  else if 1000 ≤ co2 ∧ co2 < 2000 then 3
  else if 2000 ≤ co2 ∧ co2 < 5000 then 4
  else 5

/-- The `voc_value` chained conditional of the `air_quality` read closure
(`main.rs` lines 87–97). -/
def voc_value (voc : Nat) : Nat :=
  if 0 ≤ voc ∧ voc < 25 then 1
  else if 25 ≤ voc ∧ voc < 50 then 2
  else if 50 ≤ voc ∧ voc < 325 then 3
  else if 325 ≤ voc ∧ voc < 500 then 4
  else 5

/-- The `co2_value` chained conditional with its branch structure lifted to
signed integers, to examine what the branch logic assigns to negative inputs;
in the source the input type `u16` makes negative readings unrepresentable. -/
def co2_value_int (co2 : Int) : Nat :=
  if 0 ≤ co2 ∧ co2 < 400 then 1
  else if 400 ≤ co2 ∧ co2 < 1000 then 2
  else if 1000 ≤ co2 ∧ co2 < 2000 then 3
  else if 2000 ≤ co2 ∧ co2 < 5000 then 4
  else 5

/-- The `voc_value` chained conditional lifted to signed integers (see
`co2_value_int`). -/
def voc_value_int (voc : Int) : Nat :=
  if 0 ≤ voc ∧ voc < 25 then 1
  else if 25 ≤ voc ∧ voc < 50 then 2
  else if 50 ≤ voc ∧ voc < 325 then 3
  else if 325 ≤ voc ∧ voc < 500 then 4
  else 5

/-- The `air_quality` characteristic's `on_read_async` closure (`main.rs`
lines 69–102).  The result of the `measure()` transaction is the argument;
the source's `measure().unwrap()` panics on a hardware error, otherwise the
closure returns `Some(cmp::max(co2_value, voc_value))` computed from the one
measurement. -/
def air_quality_on_read (r : Except MeasureError Measurement) :
    CallbackOutcome Nat :=
  match r with
  | Except.error _ => CallbackOutcome.panicked
  | Except.ok measurement =>
      let co2 := measurement.co2eq_ppm
      let voc := measurement.tvoc_ppb
      CallbackOutcome.returned (some (max (co2_value co2) (voc_value voc)))

/-- The `carbon_dioxide_level` characteristic's `on_read_async` closure
(`main.rs` lines 106–108).  The source casts the `u16` reading to `f32`,
which is exact for all 16-bit values, so the value is kept as `Nat`. -/
def carbon_dioxide_on_read (r : Except MeasureError Measurement) :
    CallbackOutcome Nat :=
  match r with
  | Except.error _ => CallbackOutcome.panicked
  | Except.ok measurement => CallbackOutcome.returned (some measurement.co2eq_ppm)

/-- The `voc_density` characteristic's `on_read_async` closure (`main.rs`
lines 114–116). -/
def voc_density_on_read (r : Except MeasureError Measurement) :
    CallbackOutcome Nat :=
  match r with
  | Except.error _ => CallbackOutcome.panicked
  | Except.ok measurement => CallbackOutcome.returned (some measurement.tvoc_ppb)

/-- The ordered-threshold-table form of a band classifier: `1 +` the number
of thresholds lying at or below the reading. -/
def tierOfThresholds (thresholds : List Nat) (v : Nat) : Nat :=
  1 + (thresholds.filter (fun t => t ≤ v)).length

/-- An IP address (`std::net::IpAddr`): four octets for V4, eight 16-bit
segments for V6. -/
inductive IpAddr where
  | v4 (a b c d : Nat)
  | v6 (segments : List Nat)
deriving DecidableEq

/-- `is_ipv4`: the variant test (a `pnet` `IpNetwork` is V4 exactly when its
address is V4). -/
def IpAddr.is_ipv4 : IpAddr → Bool
  | IpAddr.v4 _ _ _ _ => true
  | IpAddr.v6 _ => false

/-- `IpAddr::is_loopback`: the 127.0.0.0/8 block for V4, `::1` for V6. -/
def IpAddr.is_loopback : IpAddr → Bool
  | IpAddr.v4 a _ _ _ => a == 127
  | IpAddr.v6 segments => segments == [0, 0, 0, 0, 0, 0, 0, 1]

/-- A network interface (`pnet::datalink::NetworkInterface`), reduced to the
addresses of the networks in its `ips` list. -/
structure NetworkInterface where
  ips : List IpAddr
deriving DecidableEq

/-- The inner `for` loop of the `current_ipv4` closure (`main.rs` lines
45–52) over one interface's networks: `return` the first non-loopback IPv4
address, otherwise fall through to the next network. -/
def findV4InIps : List IpAddr → Option IpAddr
  | [] => none
  | ip :: rest =>
      if ip.is_ipv4 then
        if !ip.is_loopback then some ip else findV4InIps rest
      else findV4InIps rest

/-- The `current_ipv4` closure (`main.rs` lines 43–55): scan the interfaces
in order; the `return` inside the nested loops exits the whole closure. -/
def current_ipv4 : List NetworkInterface → Option IpAddr
  | [] => none
  | iface :: rest =>
      match findV4InIps iface.ips with
      | some ip => some ip
      | none => current_ipv4 rest

/-- HAP accessory categories; only the one the program assigns is
distinguished. -/
inductive AccessoryCategory where
  | sensor
  | other
deriving DecidableEq

/-- The fields of `hap::Config` that `main.rs` sets explicitly (lines
125–132); the remaining fields are `Default::default()` and never read by
this program.  `socket_addr` is an address paired with a port. -/
structure Config where
  socket_addr : IpAddr × Nat
  pin : List Nat
  name : String
  device_id : List Nat
  category : AccessoryCategory
deriving DecidableEq

/-- The config derived on first run (`main.rs` lines 125–132), given the
discovered IPv4 address: port 32000, the fixed pairing PIN 111-22-333, the
fixed display name, the fixed MAC-address device identity, and the sensor
category. -/
def derivedConfig (ip : IpAddr) : Config :=
  ⟨⟨ip, 32000⟩, [1, 1, 1, 2, 2, 3, 3, 3], "Air Quality Sensor",
    [10, 20, 30, 40, 50, 60], AccessoryCategory.sensor⟩

/-- Modelled from the spec: the persistent storage collaborator of §6 (the
hap crate's `FileStorage`, outside this repository), reduced to the optional
config persisted at its fixed location, together with whether the backing
location accepts writes — a rejected write is the spec's §4.4 fatal persist
failure. -/
structure StorageState where
  persisted : Option Config
  writable : Bool
deriving DecidableEq

/-- Modelled from the spec: `load_config()` succeeds exactly when a config
has been persisted, returning it unchanged. -/
def load_config (s : StorageState) : Except Unit Config :=
  match s.persisted with
  | some c => Except.ok c
  | none => Except.error ()

/-- Modelled from the spec: `save_config(&config)` returns `Result<()>` — it
replaces the persisted config, or fails when the backing location rejects
the write. -/
def save_config (c : Config) (s : StorageState) : Except Unit StorageState :=
  if s.writable then Except.ok ⟨some c, s.writable⟩ else Except.error ()

/-- The configuration bootstrap `match` (`main.rs` lines 122–136) together
with the two fatal `.unwrap()` calls on its derive path: yields the config
used for the remainder of the process and the storage left behind, or
`Except.error ()` for the process-aborting panic when no non-loopback IPv4
address exists (`current_ipv4().unwrap()`, line 126) or when persisting the
derived config fails (`save_config(&config).await.unwrap()`, line 133). -/
def bootstrap (ifaces : List NetworkInterface) (s : StorageState) :
    Except Unit (Config × StorageState) :=
  match load_config s with
  | Except.ok config => Except.ok (config, s)
  | Except.error _ =>
      match current_ipv4 ifaces with
      | none => Except.error ()
      | some ip =>
          let config := derivedConfig ip
          match save_config config s with
          | Except.error _ => Except.error ()
          | Except.ok s2 => Except.ok (config, s2)

/-- Claim C1: the classifiers assign quality tiers by fixed half-open bands:
CO2 ppm in [0,400) gives 1, [400,1000) gives 2, [1000,2000) gives 3,
[2000,5000) gives 4, and 5000 or above gives 5; VOC ppb in [0,25) gives 1,
[25,50) gives 2, [50,325) gives 3, [325,500) gives 4, and 500 or above
gives 5. -/
theorem c1_classifier_bands (c v : Nat) :
    (c < 400 → co2_value c = 1) ∧
    (400 ≤ c → c < 1000 → co2_value c = 2) ∧
    (1000 ≤ c → c < 2000 → co2_value c = 3) ∧
    (2000 ≤ c → c < 5000 → co2_value c = 4) ∧
    (5000 ≤ c → co2_value c = 5) ∧
    (v < 25 → voc_value v = 1) ∧
    (25 ≤ v → v < 50 → voc_value v = 2) ∧
    (50 ≤ v → v < 325 → voc_value v = 3) ∧
    (325 ≤ v → v < 500 → voc_value v = 4) ∧
    (500 ≤ v → voc_value v = 5) := by
  unfold co2_value voc_value
  refine ⟨?_, ?_, ?_, ?_, ?_, ?_, ?_, ?_, ?_, ?_⟩ <;> intros <;> split_ifs <;> omega

/-- Witness for C1 at boundary inputs 399 (CO2) and 500 (VOC). -/
theorem c1_classifier_bands_witness :
    co2_value 399 = 1 ∧ voc_value 500 = 5 :=
  ⟨(c1_classifier_bands 399 500).1 (by decide),
   (c1_classifier_bands 399 500).2.2.2.2.2.2.2.2.2 (by decide)⟩

/-- Claim C2: on a successful measurement, the index characteristic's read
callback returns the maximum of the CO2-derived tier and the VOC-derived
tier computed from that same single measurement. -/
theorem c2_index_is_max (m : Measurement) :
    air_quality_on_read (Except.ok m) =
      CallbackOutcome.returned
        (some (max (co2_value m.co2eq_ppm) (voc_value m.tvoc_ppb))) := rfl

/-- Claim C3 fails on the code: on a hardware measurement error the index
callback panics — the closure applies `.unwrap()` to the `measure()` result —
instead of returning "no value" (absence). -/
theorem c3_counterexample :
    air_quality_on_read (Except.error MeasureError.crc) =
        CallbackOutcome.panicked ∧
    air_quality_on_read (Except.error MeasureError.crc) ≠
        CallbackOutcome.returned (none : Option Nat) := by
  exact ⟨rfl, by decide⟩

/-- Claim C3 amended: when the hardware measurement transaction fails, each
of the three characteristic read callbacks (index, CO2, VOC) panics by
unwrapping the error; none of them ever returns "no value" on any path
(each returns an actual value on success and panics on failure). -/
theorem c3_amended_failure_panics (e : MeasureError)
    (r : Except MeasureError Measurement) :
    air_quality_on_read (Except.error e) = CallbackOutcome.panicked ∧
    carbon_dioxide_on_read (Except.error e) = CallbackOutcome.panicked ∧
    voc_density_on_read (Except.error e) = CallbackOutcome.panicked ∧
    air_quality_on_read r ≠ CallbackOutcome.returned none ∧
    carbon_dioxide_on_read r ≠ CallbackOutcome.returned none ∧
    voc_density_on_read r ≠ CallbackOutcome.returned none := by
  cases r <;>
    simp [air_quality_on_read, carbon_dioxide_on_read, voc_density_on_read]

/-- Claim C4 fails on the code: a negative input falls through every band
check (each has lower bound 0) into the final `else` branch, so the chained
conditional yields tier 5, not a clamped tier 1. -/
theorem c4_counterexample :
    co2_value_int (-1) = 5 ∧ voc_value_int (-1) = 5 ∧
    co2_value_int (-1) ≠ 1 := by decide

/-- Claim C4 amended: negative raw readings are unrepresentable in the source
(the measurement fields are `u16`); the chained conditional's branch
structure, lifted to signed integers, assigns every negative input tier 5
via the final `else` branch — no defensive clamping to tier 1 is
implemented. -/
theorem c4_amended_negative_gives_five (v : Int) (h : v < 0) :
    co2_value_int v = 5 ∧ voc_value_int v = 5 := by
  unfold co2_value_int voc_value_int
  constructor <;> split_ifs <;> omega

/-- Witness for the amended C4 at `v = -7`. -/
theorem c4_amended_negative_gives_five_witness :
    co2_value_int (-7) = 5 ∧ voc_value_int (-7) = 5 :=
  c4_amended_negative_gives_five (-7) (by decide)

/-- Claim C5: for every input, each classifier's tier and the combined index
(`max` of the two tiers) lie in {1,2,3,4,5}: never 0, never above 5. -/
theorem c5_tier_in_range (c v : Nat) :
    (1 ≤ co2_value c ∧ co2_value c ≤ 5) ∧
    (1 ≤ voc_value v ∧ voc_value v ≤ 5) ∧
    (1 ≤ max (co2_value c) (voc_value v) ∧
      max (co2_value c) (voc_value v) ≤ 5) := by
  unfold co2_value voc_value
  split_ifs <;> refine ⟨⟨?_, ?_⟩, ⟨?_, ?_⟩, ⟨?_, ?_⟩⟩ <;> omega

/-- Claim C6: the CO2 classifier is monotonically non-decreasing. -/
theorem c6_co2_monotone (c1 c2 : Nat) (h : c1 ≤ c2) :
    co2_value c1 ≤ co2_value c2 := by
  unfold co2_value
  split_ifs <;> omega

/-- Witness for C6 at 300 ≤ 4000. -/
theorem c6_co2_monotone_witness : co2_value 300 ≤ co2_value 4000 :=
  c6_co2_monotone 300 4000 (by decide)

/-- Claim C10: each chained-conditional classifier equals the
ordered-threshold-table definition `1 + #{thresholds t | v ≥ t}`, with
thresholds {400, 1000, 2000, 5000} for CO2 and {25, 50, 325, 500} for VOC. -/
theorem c10_threshold_table (v : Nat) :
    co2_value v = tierOfThresholds [400, 1000, 2000, 5000] v ∧
    voc_value v = tierOfThresholds [25, 50, 325, 500] v := by
  unfold co2_value voc_value tierOfThresholds
  constructor <;>
    simp only [List.filter_cons, List.filter_nil, decide_eq_true_eq] <;>
    split_ifs <;> simp_all <;> omega

/-- Claim C7: if loading the persisted configuration succeeds it is used
unchanged; if it fails, the derived default is persisted before use (the
storage left behind loads it back) provided the persist write succeeds,
while a failed persist aborts the process; and a second run against the
storage a successful first run leaves behind loads the same configuration
unchanged (the bootstrap is idempotent after the first run). -/
theorem c7_bootstrap_state_machine (ifaces : List NetworkInterface)
    (s : StorageState) :
    (∀ c, load_config s = Except.ok c → bootstrap ifaces s = Except.ok (c, s)) ∧
    (∀ ip s2, load_config s = Except.error () → current_ipv4 ifaces = some ip →
        save_config (derivedConfig ip) s = Except.ok s2 →
        bootstrap ifaces s = Except.ok (derivedConfig ip, s2) ∧
          load_config s2 = Except.ok (derivedConfig ip)) ∧
    (∀ ip, load_config s = Except.error () → current_ipv4 ifaces = some ip →
        save_config (derivedConfig ip) s = Except.error () →
        bootstrap ifaces s = Except.error ()) ∧
    (∀ c s2, bootstrap ifaces s = Except.ok (c, s2) →
        bootstrap ifaces s2 = Except.ok (c, s2)) := by
  obtain ⟨p, w⟩ := s
  refine ⟨?_, ?_, ?_, ?_⟩
  · intro c h
    cases p with
    | none => exact absurd h (by simp [load_config])
    | some c0 =>
        obtain rfl : c0 = c := by simpa [load_config] using h
        simp [bootstrap, load_config]
  · intro ip s2 h hip hs
    cases p with
    | some c0 => exact absurd h (by simp [load_config])
    | none =>
        cases w with
        | false => exact absurd hs (by simp [save_config])
        | true =>
            obtain rfl :
                (⟨some (derivedConfig ip), true⟩ : StorageState) = s2 := by
              simpa [save_config] using hs
            exact ⟨by simp [bootstrap, load_config, hip, save_config],
              by simp [load_config]⟩
  · intro ip h hip hs
    cases p with
    | some c0 => exact absurd h (by simp [load_config])
    | none =>
        cases w with
        | true => exact absurd hs (by simp [save_config])
        | false => simp [bootstrap, load_config, hip, save_config]
  · intro c s2 h
    cases p with
    | some c0 =>
        obtain ⟨rfl, rfl⟩ : c0 = c ∧ (⟨some c0, w⟩ : StorageState) = s2 := by
          simpa [bootstrap, load_config] using h
        simp [bootstrap, load_config]
    | none =>
        cases hip : current_ipv4 ifaces with
        | none => simp [bootstrap, load_config, hip] at h
        | some ip =>
            cases w with
            | false => simp [bootstrap, load_config, hip, save_config] at h
            | true =>
                obtain ⟨rfl, rfl⟩ :
                    derivedConfig ip = c ∧
                      (⟨some (derivedConfig ip), true⟩ : StorageState) = s2 := by
                  simpa [bootstrap, load_config, hip, save_config] using h
                simp [bootstrap, load_config]

/-- Witness for C7: on clean writable storage with one usable interface, the
bootstrap derives, persists, and the persisted storage loads the derived
config back. -/
theorem c7_bootstrap_state_machine_witness :
    bootstrap [⟨[IpAddr.v4 10 0 0 5]⟩] ⟨none, true⟩ =
      Except.ok (derivedConfig (IpAddr.v4 10 0 0 5),
        ⟨some (derivedConfig (IpAddr.v4 10 0 0 5)), true⟩) ∧
    load_config ⟨some (derivedConfig (IpAddr.v4 10 0 0 5)), true⟩ =
      Except.ok (derivedConfig (IpAddr.v4 10 0 0 5)) :=
  (c7_bootstrap_state_machine [⟨[IpAddr.v4 10 0 0 5]⟩] ⟨none, true⟩).2.1
    (IpAddr.v4 10 0 0 5) ⟨some (derivedConfig (IpAddr.v4 10 0 0 5)), true⟩
    rfl rfl rfl

/-- `findV4InIps` returns the first address in the list that is IPv4 and not
loopback. -/
theorem findV4InIps_eq_find (ips : List IpAddr) :
    findV4InIps ips = ips.find? (fun a => a.is_ipv4 && !a.is_loopback) := by
  induction ips with
  | nil => rfl
  | cons ip rest ih =>
      cases h4 : ip.is_ipv4 <;> cases hl : ip.is_loopback <;>
        simp [findV4InIps, List.find?, h4, hl, ih]

/-- Claim C8: `current_ipv4` selects the first non-loopback IPv4 address
across all interfaces' networks in order; the derive path aborts the process
when none exists; and the derived config carries the fixed pairing PIN, the
fixed device identity, the fixed display name and the sensor category. -/
theorem c8_derive_config (ifaces : List NetworkInterface) (ip : IpAddr) :
    current_ipv4 ifaces =
      (ifaces.flatMap NetworkInterface.ips).find?
        (fun a => a.is_ipv4 && !a.is_loopback) ∧
    (∀ s : StorageState, current_ipv4 ifaces = none →
        load_config s = Except.error () → bootstrap ifaces s = Except.error ()) ∧
    (derivedConfig ip).socket_addr = (ip, 32000) ∧
    (derivedConfig ip).pin = [1, 1, 1, 2, 2, 3, 3, 3] ∧
    (derivedConfig ip).name = "Air Quality Sensor" ∧
    (derivedConfig ip).device_id = [10, 20, 30, 40, 50, 60] ∧
    (derivedConfig ip).category = AccessoryCategory.sensor := by
  refine ⟨?_, ?_, rfl, rfl, rfl, rfl, rfl⟩
  · induction ifaces with
    | nil => rfl
    | cons iface rest ih =>
        cases hf : findV4InIps iface.ips with
        | some a =>
            rw [findV4InIps_eq_find] at hf
            simp [current_ipv4, findV4InIps_eq_find, hf, List.find?_append]
        | none =>
            rw [findV4InIps_eq_find] at hf
            simp [current_ipv4, findV4InIps_eq_find, hf, List.find?_append, ih]
  · intro s h hs
    obtain ⟨p, w⟩ := s
    cases p with
    | some c0 => exact absurd hs (by simp [load_config])
    | none => simp [bootstrap, load_config, h]

/-- Witness for C8: with no interfaces the derive path aborts on clean
storage, and the fixed constants are as stated. -/
theorem c8_derive_config_witness :
    bootstrap [] ⟨none, true⟩ = Except.error () ∧
    (derivedConfig (IpAddr.v4 10 0 0 5)).pin = [1, 1, 1, 2, 2, 3, 3, 3] :=
  ⟨(c8_derive_config [] (IpAddr.v4 10 0 0 5)).2.1 ⟨none, true⟩ rfl rfl,
   (c8_derive_config [] (IpAddr.v4 10 0 0 5)).2.2.2.1⟩

end AirQualitySensor
